import Mathlib

/-!
Shallow embedding of `src/crawl_iqair.py` (an AQI/weather crawler that
extracts fields from a dashboard page, validates them and appends them to
per-city, per-month CSV files).

Modelling conventions:
- Python `None` is `Option.none`; validated fields are `Option String`.
- Python `str` is Lean `String`; `str.strip()` is `pyStrip`, `str.lower()`
  is `pyLower` (ASCII, which covers all text these functions ever see).
- Python digits (`\d`, `isdigit`, `int`) are modelled over ASCII digits.
- Python floats are modelled as exact fractions (`Frac`: an integer
  numerator over a positive denominator, kept unreduced so that every
  operation is a structural computation).  All arithmetic the code performs
  is exact in this model.  `f"{v:.1f}"` is `fmt1`, which rounds half up
  (`⌊q*10 + 1/2⌋`); CPython formats the underlying binary double with
  round-half-even, but no value in this development is a tie, so the two
  agree on everything stated here.
- DOM elements are records of the query results the code reads from them;
  a selector that found nothing is `none`.  The statements below only rely
  on the code paths visible in the source.
- Exceptions are modelled by `Option`: a code path that raises is a `none`
  input to the function that catches it, as noted at each definition.
- Python dicts (insertion-ordered, assignment updates in place) are
  association lists with `dictInsert` / `dictContains` / `lookupAssoc`.
- I/O (current time, filesystem) is passed explicitly: `crawl_city_data`
  receives the ISO timestamp it would compute, `save_to_csv` receives the
  current year/month (`get_vietnam_time()` at line 262) and the filesystem
  as an association from paths to lists of CSV rows.
-/

/-- Python `str.strip()` on the whitespace characters Python strips. -/
def pyIsSpace (c : Char) : Bool :=
  c = ' ' || c = '\t' || c = '\n' || c = '\r' || c = '\x0b' || c = '\x0c'

def pyStrip (s : String) : String :=
  String.mk (((s.toList.dropWhile pyIsSpace).reverse.dropWhile pyIsSpace).reverse)

/-- Python `str.lower()` (ASCII case fold). -/
def pyLower (s : String) : String :=
  String.mk (s.toList.map Char.toLower)

def startsWithL : List Char → List Char → Bool
  | _, [] => true
  | [], _ :: _ => false
  | a :: as, b :: bs => a == b && startsWithL as bs

def containsL : List Char → List Char → Bool
  | [], pat => pat.isEmpty
  | a :: as, pat => startsWithL (a :: as) pat || containsL as pat

/-- Python `pat in hay` substring test. -/
def strContains (hay pat : String) : Bool :=
  containsL hay.toList pat.toList

/-- Value of a list of ASCII digit characters, as Python `int` reads it. -/
def digitsVal (l : List Char) : ℕ :=
  l.foldl (fun a c => a * 10 + (c.toNat - 48)) 0

/-- Exact fraction: Python float values, modelled exactly.  Every
construction below keeps `den` positive, and structural equality is only
ever used on values built the same way, so no normalization is needed. -/
structure Frac where
  num : ℤ
  den : ℤ
  deriving DecidableEq

instance : OfNat Frac n := ⟨⟨n, 1⟩⟩

instance : NatCast Frac := ⟨fun n => ⟨n, 1⟩⟩

instance : Neg Frac := ⟨fun a => ⟨-a.num, a.den⟩⟩

instance : Add Frac := ⟨fun a b => ⟨a.num * b.den + b.num * a.den, a.den * b.den⟩⟩

instance : Sub Frac := ⟨fun a b => ⟨a.num * b.den - b.num * a.den, a.den * b.den⟩⟩

instance : Mul Frac := ⟨fun a b => ⟨a.num * b.num, a.den * b.den⟩⟩

instance : Div Frac := ⟨fun a b =>
  if b.num < 0 then ⟨-(a.num * b.den), a.den * -b.num⟩ else ⟨a.num * b.den, a.den * b.num⟩⟩

instance : Pow Frac ℕ := ⟨fun a n => ⟨a.num ^ n, a.den ^ n⟩⟩

instance : LT Frac := ⟨fun a b => a.num * b.den < b.num * a.den⟩

instance : LE Frac := ⟨fun a b => a.num * b.den ≤ b.num * a.den⟩

instance (a b : Frac) : Decidable (a < b) := inferInstanceAs (Decidable (_ < _))

instance (a b : Frac) : Decidable (a ≤ b) := inferInstanceAs (Decidable (_ ≤ _))

/-- Floor of a fraction with positive denominator (`Int` division in Lean
rounds toward negative infinity for a positive divisor). -/
def Frac.floorInt (q : Frac) : ℤ := q.num / q.den

/-- Split a character list at every `'.'` (used to model `float` parsing). -/
def splitDot : List Char → List (List Char)
  | [] => [[]]
  | c :: rest =>
    let r := splitDot rest
    if c = '.' then [] :: r
    else
      match r with
      | h :: t => (c :: h) :: t
      | [] => [[c]]

def parsePyFloatCore (l : List Char) : Option Frac :=
  match splitDot l with
  | [ip] =>
    if ip.all Char.isDigit && !ip.isEmpty then some ((digitsVal ip : Frac)) else none
  | [ip, fp] =>
    if ip.all Char.isDigit && fp.all Char.isDigit && (!ip.isEmpty || !fp.isEmpty) then
      some ((digitsVal ip : Frac) + (digitsVal fp : Frac) / (10 : Frac) ^ fp.length)
    else none
  | _ => none

/-- Python `float(s)` on strings whose characters are digits, `'.'` and `'-'`
(the only strings it is applied to here, after `re.sub`); `none` models the
`ValueError` that the callers catch. -/
def parsePyFloat (s : String) : Option Frac :=
  match s.toList with
  | '-' :: rest => (parsePyFloatCore rest).map (fun q => -q)
  | l => parsePyFloatCore l

/-- Python `f"{q:.1f}"`: one decimal place (ties round up in this model; no
value in this development is a tie). -/
def fmt1 (q : Frac) : String :=
  let n : ℤ := (q * 10 + 1 / 2).floorInt
  let a : ℕ := n.natAbs
  (if n < 0 then "-" else "") ++ toString (a / 10) ++ "." ++ toString (a % 10)

/-- Element handed to `validate_aqi` (source line 229 queries
`span.font-extrabold`): its `title` attribute and its text content. -/
structure AqiElement where
  title : Option String
  text : String
  deriving DecidableEq

/-- Source lines 54-68, `validate_aqi`.  The `title` attribute is used when
truthy, else the stripped text; `re.sub(r'\D', '', ...)` keeps the digits;
`isdigit()` then just means "nonempty"; the int must lie in `[0, 500]`. -/
def validate_aqi (aqi_element : Option AqiElement) : Option String :=
  match aqi_element with
  | none => none
  | some e =>
    let aqi_value :=
      match e.title with
      | some t => if t = "" then pyStrip e.text else t
      | none => pyStrip e.text
    let ds := aqi_value.toList.filter Char.isDigit
    if !ds.isEmpty then
      let aqi_int := digitsVal ds
      if 0 ≤ aqi_int ∧ aqi_int ≤ 500 then some (toString aqi_int) else none
    else none

/-- Source lines 70-74, `validate_weather_condition`, on a string argument
(`crawl_city_data` first calls it on the page object, where the
`isinstance(condition, str)` test fails and it returns `None`; only the
string call at line 234 can produce a value). -/
def validate_weather_condition (condition : String) : Option String :=
  if condition ≠ "" then some (pyStrip condition) else none

/-- The regex `^\d+(\.\d+)?\s*(km/h|mph)$` of source line 88.  Greedy digit
runs are faithful: backtracking can never rescue a failed greedy match here
because digits, `'.'`, whitespace and the unit letters are disjoint. -/
def windMatch (s : String) : Bool :=
  let l := s.toList
  let ds := l.takeWhile Char.isDigit
  if ds.isEmpty then false
  else
    let rest := l.drop ds.length
    let rest2 :=
      match rest with
      | '.' :: r =>
        let fs := r.takeWhile Char.isDigit
        if fs.isEmpty then rest else r.drop fs.length
      | _ => rest
    let tail := rest2.dropWhile pyIsSpace
    tail == "km/h".toList || tail == "mph".toList

/-- The leading-number match `re.match(r'^\d+(\.\d+)?', s).group()` of source
line 90, parsed as a number; `none` when there is no leading digit (the
`AttributeError` on `.group()` that the caller catches). -/
def leadingNumber (s : String) : Option Frac :=
  let l := s.toList
  let ds := l.takeWhile Char.isDigit
  if ds.isEmpty then none
  else
    match l.drop ds.length with
    | '.' :: r =>
      let fs := r.takeWhile Char.isDigit
      if fs.isEmpty then some ((digitsVal ds : Frac))
      else some ((digitsVal ds : Frac) + (digitsVal fs : Frac) / (10 : Frac) ^ fs.length)
    | _ => some ((digitsVal ds : Frac))

/-- Source lines 88-96: the validation core of `validate_wind_speed`, on the
assembled string (lines 81-87 build it from the element's child spans as
`"<span0> <span1>"`, defaulting the unit to `"km/h"`). -/
def validate_wind_speed (wind_speed : String) : Option String :=
  if windMatch wind_speed then
    if strContains wind_speed "mph" then
      match leadingNumber wind_speed with
      | some value => some (fmt1 (value * (160934 / 100000 : Frac)) ++ " km/h")
      | none => none
    else some wind_speed
  else none

/-- The regex `^\d{1,3}%$` of source line 107. -/
def humidityMatch (s : String) : Bool :=
  let l := s.toList
  let ds := l.takeWhile Char.isDigit
  decide (1 ≤ ds.length) && decide (ds.length ≤ 3) && (l.drop ds.length == ['%'])

/-- Source lines 98-111: the validation core of `validate_humidity`, on the
assembled string. -/
def validate_humidity (humidity_text : String) : Option String :=
  if humidityMatch humidity_text then some humidity_text else none

/-- Source lines 113-124, `validate_temperature`:
`re.sub(r'[^\d.-]', '', temp)` keeps digits, `'.'` and `'-'`. -/
def stripTemp (s : String) : String :=
  String.mk (s.toList.filter (fun c => c.isDigit || c == '.' || c == '-'))

def validate_temperature (temp : Option String) : Option String :=
  match temp with
  | none => none
  | some t =>
    if t = "" then none
    else
      match parsePyFloat (stripTemp t) with
      | none => none
      | some temp_value =>
        let temp_value2 := if temp_value > 50 then (temp_value - 32) * 5 / 9 else temp_value
        if -50 ≤ temp_value2 ∧ temp_value2 ≤ 50 then some (fmt1 temp_value2 ++ "°C")
        else none

/-- Source lines 126-141, `normalize_pollutant_name`. -/
def normalize_pollutant_name (name : String) : String :=
  let n := pyLower name
  if strContains n "pm2.5" then "pm25"
  else if strContains n "pm10" then "pm10"
  else if strContains n "co" then "co"
  else if strContains n "so2" then "so2"
  else if strContains n "no2" then "no2"
  else if strContains n "o3" then "o3"
  else pyStrip n

/-- The regex `^\d{1,2}$` of source line 180. -/
def uvMatch (s : String) : Bool :=
  let l := s.toList
  l.all Char.isDigit && decide (1 ≤ l.length) && decide (l.length ≤ 2)

/-- Source lines 171-186: the validation core of `validate_uv_index`, on the
assembled string. -/
def validate_uv_index (uv_text : String) : Option String :=
  if uvMatch uv_text then
    let uv_value := digitsVal uv_text.toList
    if 0 ≤ uv_value ∧ uv_value ≤ 11 then some (toString uv_value) else none
  else none

/-- Python-dict membership test `key in d`. -/
def dictContains (d : List (String × String)) (k : String) : Bool :=
  d.any (fun p => p.1 == k)

/-- Python-dict assignment `d[k] = v`: update in place when the key exists,
append otherwise. -/
def dictInsert (d : List (String × String)) (k v : String) : List (String × String) :=
  if dictContains d k then d.map (fun p => if p.1 = k then (k, v) else p)
  else d ++ [(k, v)]

def dictKeys (d : List (String × String)) : List String :=
  d.map Prod.fst

/-- One `.major-pollutant` block as `extract_pollutants` reads it:
`fault` models a block whose processing raises (the per-block `except` at
source line 162); otherwise the text of `.sensor-name`, `span.font-bold`,
the first generic `span`, and `.sensor-unit` (each `none` when the selector
found nothing). -/
inductive PBlock where
  | fault : PBlock
  | ok (nameText : Option String) (boldText : Option String)
      (spanText : Option String) (unitText : Option String) : PBlock
  deriving DecidableEq

/-- Source lines 148-161: what one pollutant block contributes, as an
optional key/value pair. -/
def blockEntry : PBlock → Option (String × String)
  | .fault => none
  | .ok nameText boldText spanText unitText =>
    let name_text := nameText.map pyStrip
    let value_text := (boldText <|> spanText).map pyStrip
    let unit_text := unitText.map pyStrip
    match name_text, value_text with
    | some n, some v =>
      if n ≠ "" ∧ v ≠ "" then
        let pollutant_key := normalize_pollutant_name n
        let pollutant_value := String.mk (v.toList.filter (fun c => c.isDigit || c == '.'))
        if pollutant_value ≠ "" then
          some (pollutant_key,
            match unit_text with
            | some u => if u ≠ "" then pollutant_value ++ " " ++ u else pollutant_value
            | none => pollutant_value)
        else none
      else none
    | _, _ => none

def processBlock (d : List (String × String)) (b : PBlock) : List (String × String) :=
  match blockEntry b with
  | none => d
  | some (k, v) => dictInsert d k v

/-- The canonical pollutant keys of source lines 164 and 243. -/
def CANON : List String := ["pm25", "pm10", "co", "so2", "no2", "o3"]

/-- One step of `if p not in pollutant_data: pollutant_data[p] = "N/A"`. -/
def ensureStep (d : List (String × String)) (p : String) : List (String × String) :=
  if dictContains d p then d else dictInsert d p "N/A"

def ensureCanon (d : List (String × String)) : List (String × String) :=
  CANON.foldl ensureStep d

/-- Source lines 143-169, `extract_pollutants`.  `none` blocks model the
outer `except` (the whole `.major-pollutant` query raising), which returns
the empty dict; otherwise each block is processed with its per-block
exception handling, then the canonical keys are defaulted to `"N/A"`. -/
def extract_pollutants (blocks : Option (List PBlock)) : List (String × String) :=
  match blocks with
  | none => []
  | some bs => ensureCanon (bs.foldl processBlock [])

/-- One `.component` block as `extract_weather_components` reads it:
`imgAlt = none` means no `img` element; `some none` means the `img` has no
`alt` attribute (then `.strip()` raises `AttributeError`, caught by the
per-block `except`); `spans` are the texts of the block's `span` elements. -/
structure WComponent where
  imgAlt : Option (Option String)
  spans : List String
  deriving DecidableEq

structure WeatherData where
  humidity : Option String
  wind_speed : Option String
  uv_index : Option String
  deriving DecidableEq

/-- Source lines 193-208: one iteration of the `.component` loop.  Note the
raw `value_text` is stored directly; no validator is applied here. -/
def processComponent (w : WeatherData) (c : WComponent) : WeatherData :=
  match c.imgAlt with
  | none => w
  | some none => w
  | some (some alt) =>
    let img_alt := pyLower (pyStrip alt)
    match c.spans with
    | _ :: s1 :: _ =>
      let value_text := pyStrip s1
      if strContains img_alt "humidity" then { w with humidity := some value_text }
      else if strContains img_alt "wind speed" then { w with wind_speed := some value_text }
      else if strContains img_alt "uv index" then { w with uv_index := some value_text }
      else w
    | _ => w

/-- Source lines 188-211, `extract_weather_components`; `none` models the
outer `except` (the `.component` query itself raising). -/
def extract_weather_components (components : Option (List WComponent)) : WeatherData :=
  match components with
  | none => { humidity := none, wind_speed := none, uv_index := none }
  | some cs => cs.foldl processComponent { humidity := none, wind_speed := none, uv_index := none }

/-- Source lines 213-221, `extract_temperature`: requires both the value and
unit spans, and returns their stripped texts concatenated, unvalidated. -/
def extract_temperature (tempPrimary : Option (String × String)) : Option String :=
  match tempPrimary with
  | some (v, u) => some (pyStrip v ++ pyStrip u)
  | none => none

/-- The rendered page, as the query results `crawl_city_data` reads:
`span.font-extrabold` (AQI), `span.condition-text`, the two temperature
spans of `extract_temperature` (present only when both matched),
`.air-quality-forecast-container-weather__label`, the `.component` list and
the `.major-pollutant` list. -/
structure Page where
  aqiElement : Option AqiElement
  conditionText : Option String
  tempPrimary : Option (String × String)
  tempFallbackText : Option String
  components : Option (List WComponent)
  pollutantBlocks : Option (List PBlock)
  deriving DecidableEq

/-- One Measurement Record: the eight fixed fields of the dict literal at
source lines 246-255, plus the pollutant dict spliced in by
`**pollutant_data`. -/
structure Record where
  timestamp : String
  city : String
  aqi : Option String
  weather_condition : Option String
  wind_speed : Option String
  humidity : Option String
  temperature : Option String
  uv_index : Option String
  pollutants : List (String × String)
  deriving DecidableEq, Inhabited

/-- Source lines 223-259, `crawl_city_data`.  `page = none` models the
`except` path (navigation or a query raising), which returns `None`.
`now_iso` stands for `get_vietnam_time().isoformat()`.  The first
`validate_weather_condition(page)` call at line 230 always returns `None`
(the argument is the page object, not a `str`), so only the
`span.condition-text` fallback matters; likewise the temperature fallback
runs when `extract_temperature` returned `None` or `""`. -/
def crawl_city_data (now_iso : String) (city_display : String) (page : Option Page) :
    Option Record :=
  match page with
  | none => none
  | some pg =>
    let weather_condition := validate_weather_condition (pg.conditionText.getD "")
    let temperature :=
      match extract_temperature pg.tempPrimary with
      | some t =>
        if t = "" then validate_temperature (some (pg.tempFallbackText.getD "")) else some t
      | none => validate_temperature (some (pg.tempFallbackText.getD ""))
    let aqi := validate_aqi pg.aqiElement
    let weather_data := extract_weather_components pg.components
    let pollutant_data := ensureCanon (extract_pollutants pg.pollutantBlocks)
    some {
      timestamp := now_iso
      city := city_display
      aqi := aqi
      weather_condition := weather_condition
      wind_speed := weather_data.wind_speed
      humidity := weather_data.humidity
      temperature := temperature
      uv_index := weather_data.uv_index
      pollutants := pollutant_data }

/-- The keys of the record dict, in dict order: the eight fixed fields of
the literal, then the keys spliced in from the pollutant dict. -/
def FIXED_FIELDS : List String :=
  ["timestamp", "city", "aqi", "weather_condition", "wind_speed", "humidity",
   "temperature", "uv_index"]

def recordKeys (r : Record) : List String :=
  FIXED_FIELDS ++ dictKeys r.pollutants

/-- The fixed CSV header of source line 267. -/
def HEADERS : List String :=
  ["timestamp", "city", "aqi", "weather_condition", "wind_speed", "humidity",
   "temperature", "uv_index", "pm25", "pm10", "o3", "no2", "so2", "co"]

/-- The year/month of `get_vietnam_time()` at the moment `save_to_csv` runs
(source line 262). -/
structure DateParts where
  year : ℕ
  month : ℕ
  deriving DecidableEq

/-- `now.strftime('%b').lower()`: three-letter lowercase English month. -/
def monthAbbrev : ℕ → String
  | 1 => "jan"
  | 2 => "feb"
  | 3 => "mar"
  | 4 => "apr"
  | 5 => "may"
  | 6 => "jun"
  | 7 => "jul"
  | 8 => "aug"
  | 9 => "sep"
  | 10 => "oct"
  | 11 => "nov"
  | 12 => "dec"
  | _ => ""

/-- Source lines 263-266: the Output File path. -/
def csvPath (city_name : String) (now : DateParts) : String :=
  "result/" ++ city_name ++ "/" ++ "aqi_" ++ city_name ++ "_" ++
    toString now.year ++ "_" ++ monthAbbrev now.month ++ ".csv"

def lookupAssoc {α : Type} : List (String × α) → String → Option α
  | [], _ => none
  | (k, v) :: t, q => if k = q then some v else lookupAssoc t q

def assocSet {α : Type} : List (String × α) → String → α → List (String × α)
  | [], q, v => [(q, v)]
  | (k, w) :: t, q, v => if k = q then (q, v) :: t else (k, w) :: assocSet t q v

/-- Value `csv.DictWriter` writes for header field `h`: pollutant entries
shadow fixed fields on collision (they are spliced last into the dict
literal); a fixed field whose value is `None` is written as the empty
string; a header key absent from the dict gets the `restval` `""`. -/
def cellFor (r : Record) (h : String) : String :=
  match lookupAssoc r.pollutants h with
  | some v => v
  | none =>
    if h = "timestamp" then r.timestamp
    else if h = "city" then r.city
    else if h = "aqi" then r.aqi.getD ""
    else if h = "weather_condition" then r.weather_condition.getD ""
    else if h = "wind_speed" then r.wind_speed.getD ""
    else if h = "humidity" then r.humidity.getD ""
    else if h = "temperature" then r.temperature.getD ""
    else if h = "uv_index" then r.uv_index.getD ""
    else ""

/-- `writer.writerow(data)`: `csv.DictWriter` raises `ValueError` when the
dict has keys outside `fieldnames` (the fixed fields all are header names,
so only pollutant keys can violate this); otherwise one row in header
order. -/
def rowOf (r : Record) : Option (List String) :=
  if (dictKeys r.pollutants).all (fun k => HEADERS.contains k) then
    some (HEADERS.map (cellFor r))
  else none

/-- The filesystem seen by `save_to_csv`: CSV files as lists of rows. -/
abbrev CsvFS := List (String × List (List String))

/-- Source lines 261-274, `save_to_csv`.  The header is written only when
the file did not exist before the call; the row is appended after it.  When
`writerow` raises (extra keys), the header — already written if the file was
new — stays on disk and the function returns no path. -/
def save_to_csv (fs : CsvFS) (data : Record) (city_name : String) (now : DateParts) :
    CsvFS × Option String :=
  let filepath := csvPath city_name now
  let file_exists := (lookupAssoc fs filepath).isSome
  let existing := (lookupAssoc fs filepath).getD []
  let withHeader := if file_exists then existing else existing ++ [HEADERS]
  match rowOf data with
  | some row => (assocSet fs filepath (withHeader ++ [row]), some filepath)
  | none => (assocSet fs filepath withHeader, none)

/-- The digit characters of a string, in order (`re.sub(r'\D', '', s)`). -/
def digitsOf (s : String) : List Char :=
  s.toList.filter Char.isDigit

/-- A page whose weather `.component` blocks carry raw texts that every
validator rejects, and whose primary temperature spans read `999` / `°C`. -/
def pgKnots : Page :=
  { aqiElement := none
    conditionText := none
    tempPrimary := some ("999", "°C")
    tempFallbackText := none
    components := some
      [{ imgAlt := some (some "Wind Speed"), spans := ["icon", "10 knots"] }
       , { imgAlt := some (some "Humidity"), spans := ["icon", "wet"] }
       , { imgAlt := some (some "UV Index"), spans := ["icon", "high"] }]
    pollutantBlocks := some [] }

/-- A page with no extractable data and an empty pollutant list. -/
def pgEmpty : Page :=
  { aqiElement := none, conditionText := none, tempPrimary := none,
    tempFallbackText := none, components := none, pollutantBlocks := some [] }

/-- The record `crawl_city_data "t" "c" (some pgEmpty)` produces. -/
def rEmpty : Record :=
  { timestamp := "t", city := "c", aqi := none, weather_condition := none,
    wind_speed := none, humidity := none, temperature := none, uv_index := none,
    pollutants := [("pm25", "N/A"), ("pm10", "N/A"), ("co", "N/A"), ("so2", "N/A"),
                   ("no2", "N/A"), ("o3", "N/A")] }

/-- The CSV row `rowOf rEmpty` produces. -/
def rowBlank : List String :=
  ["t", "c", "", "", "", "", "", "", "N/A", "N/A", "N/A", "N/A", "N/A", "N/A"]

/-- A pollutant block labelled `Radon` with value text `5`. -/
def blkRadon : PBlock := PBlock.ok (some "Radon") (some "5") none none

/-- A page whose pollutant list holds only the `Radon` block. -/
def pgRadon : Page :=
  { aqiElement := none, conditionText := none, tempPrimary := none,
    tempFallbackText := none, components := none, pollutantBlocks := some [blkRadon] }

/-- The record `crawl_city_data "t" "c" (some pgRadon)` produces: the six
canonical keys plus the extra `radon` key. -/
def rRadon : Record :=
  { timestamp := "t", city := "c", aqi := none, weather_condition := none,
    wind_speed := none, humidity := none, temperature := none, uv_index := none,
    pollutants := [("radon", "5"), ("pm25", "N/A"), ("pm10", "N/A"), ("co", "N/A"),
                   ("so2", "N/A"), ("no2", "N/A"), ("o3", "N/A")] }

/-- A record whose `timestamp` field is in January 2024. -/
def recJan : Record :=
  { rEmpty with timestamp := "2024-01-31T23:59:59+07:00" }

/-! ### Dictionary lemmas -/

theorem dictContains_iff (d : List (String × String)) (k : String) :
    dictContains d k = true ↔ k ∈ dictKeys d := by
  simp [dictContains, dictKeys, List.any_eq_true, List.mem_map]

theorem dictKeys_dictInsert (d : List (String × String)) (k v : String) :
    dictKeys (dictInsert d k v) =
      if dictContains d k then dictKeys d else dictKeys d ++ [k] := by
  unfold dictInsert
  split
  · simp only [dictKeys, List.map_map]
    refine List.map_congr_left ?_
    intro p _
    by_cases hp : p.1 = k <;> simp [hp]
  · simp [dictKeys]

theorem mem_dictKeys_dictInsert_of_mem {d : List (String × String)} {k' : String}
    (k v : String) (h : k' ∈ dictKeys d) : k' ∈ dictKeys (dictInsert d k v) := by
  rw [dictKeys_dictInsert]
  split
  · exact h
  · exact List.mem_append_left _ h

theorem mem_dictKeys_dictInsert_self (d : List (String × String)) (k v : String) :
    k ∈ dictKeys (dictInsert d k v) := by
  rw [dictKeys_dictInsert]
  split
  · exact (dictContains_iff d k).mp (by assumption)
  · exact List.mem_append_right _ (by simp)

theorem mem_dictKeys_processBlock {d : List (String × String)} {k' : String}
    (b : PBlock) (h : k' ∈ dictKeys d) : k' ∈ dictKeys (processBlock d b) := by
  unfold processBlock
  rcases hb : blockEntry b with _ | ⟨k, v⟩
  · exact h
  · exact mem_dictKeys_dictInsert_of_mem k v h

theorem mem_dictKeys_foldl_processBlock {k' : String} (bs : List PBlock)
    (d : List (String × String)) (h : k' ∈ dictKeys d) :
    k' ∈ dictKeys (bs.foldl processBlock d) := by
  induction bs generalizing d with
  | nil => exact h
  | cons b bs ih => exact ih _ (mem_dictKeys_processBlock b h)

theorem mem_dictKeys_ensureStep_of_mem {d : List (String × String)} {k' : String}
    (p : String) (h : k' ∈ dictKeys d) : k' ∈ dictKeys (ensureStep d p) := by
  unfold ensureStep
  split
  · exact h
  · exact mem_dictKeys_dictInsert_of_mem p "N/A" h

theorem mem_dictKeys_ensureStep_self (d : List (String × String)) (p : String) :
    p ∈ dictKeys (ensureStep d p) := by
  unfold ensureStep
  split
  · exact (dictContains_iff d p).mp (by assumption)
  · exact mem_dictKeys_dictInsert_self d p "N/A"

theorem mem_dictKeys_foldl_ensureStep {k' : String} (l : List String)
    (d : List (String × String)) (h : k' ∈ dictKeys d) :
    k' ∈ dictKeys (l.foldl ensureStep d) := by
  induction l generalizing d with
  | nil => exact h
  | cons p l ih => exact ih _ (mem_dictKeys_ensureStep_of_mem p h)

theorem mem_dictKeys_foldl_ensureStep_of_mem_list {p : String} (l : List String)
    (d : List (String × String)) (h : p ∈ l) :
    p ∈ dictKeys (l.foldl ensureStep d) := by
  induction l generalizing d with
  | nil => cases h
  | cons q l ih =>
    rcases List.mem_cons.mp h with rfl | h2
    · exact mem_dictKeys_foldl_ensureStep l _ (mem_dictKeys_ensureStep_self d p)
    · exact ih _ h2

theorem mem_dictKeys_ensureCanon_of_canon {p : String} (d : List (String × String))
    (h : p ∈ CANON) : p ∈ dictKeys (ensureCanon d) :=
  mem_dictKeys_foldl_ensureStep_of_mem_list CANON d h

theorem mem_dictKeys_ensureCanon_of_mem {k' : String} (d : List (String × String))
    (h : k' ∈ dictKeys d) : k' ∈ dictKeys (ensureCanon d) :=
  mem_dictKeys_foldl_ensureStep CANON d h

theorem mem_dictKeys_foldl_of_block {k v : String} (bs : List PBlock)
    (d : List (String × String)) (b : PBlock) (hb : b ∈ bs)
    (he : blockEntry b = some (k, v)) : k ∈ dictKeys (bs.foldl processBlock d) := by
  induction bs generalizing d with
  | nil => cases hb
  | cons b0 bs ih =>
    rcases List.mem_cons.mp hb with rfl | h2
    · refine mem_dictKeys_foldl_processBlock bs _ ?_
      unfold processBlock
      rw [he]
      exact mem_dictKeys_dictInsert_self d k v
    · exact ih _ h2

theorem lookup_assocSet_self {α : Type} (fs : List (String × α)) (k : String) (v : α) :
    lookupAssoc (assocSet fs k v) k = some v := by
  induction fs with
  | nil => simp [assocSet, lookupAssoc]
  | cons p t ih =>
    obtain ⟨k0, v0⟩ := p
    unfold assocSet
    by_cases h : k0 = k
    · subst h
      simp [lookupAssoc]
    · simp [lookupAssoc, h, ih]

/-! ### Claim theorems -/

/-- C5: `normalize_pollutant_name` performs an ordered, first-match-wins,
case-insensitive substring match — `pm2.5` to `pm25`, else `pm10`, else
`co`, else `so2`, else `no2`, else `o3` — and any unmatched label maps to
its own trimmed lowercase text; `PM2.5` gives `pm25`, `NO2 ` gives `no2`,
`Radon` gives `radon`. -/
theorem normalize_pollutant_name_spec :
    (∀ s : String, normalize_pollutant_name s =
      if strContains (pyLower s) "pm2.5" then "pm25"
      else if strContains (pyLower s) "pm10" then "pm10"
      else if strContains (pyLower s) "co" then "co"
      else if strContains (pyLower s) "so2" then "so2"
      else if strContains (pyLower s) "no2" then "no2"
      else if strContains (pyLower s) "o3" then "o3"
      else pyStrip (pyLower s))
    ∧ normalize_pollutant_name "PM2.5" = "pm25"
    ∧ normalize_pollutant_name "NO2 " = "no2"
    ∧ normalize_pollutant_name "Radon" = "radon" :=
  ⟨fun _ => rfl, by decide, by decide, by decide⟩

/-- C2 counterexample: on the raw input `"-1"` the AQI validator does not
yield the absence marker, contrary to the claim — stripping non-digit
characters turns `"-1"` into `"1"`, which is accepted and returned. -/
theorem validate_aqi_neg_counterexample :
    validate_aqi (some { title := none, text := "-1" }) = some "1" ∧
    validate_aqi (some { title := none, text := "-1" }) ≠ none := by
  constructor
  · decide
  · decide

/-- C2 amended: the AQI validator accepts a raw input iff, after stripping
non-digit characters, a nonempty digit string remains whose value is at
most 500, and it then returns that value's decimal form; `"501"` and
`"abc"` give the absence marker, `"42"` gives `"42"`, but `"-1"` gives
`"1"` (not the absence marker, since stripping removes the sign). -/
theorem validate_aqi_characterization :
    (∀ t : String, validate_aqi (some { title := some t, text := "" }) =
      if digitsOf t ≠ [] ∧ digitsVal (digitsOf t) ≤ 500
      then some (toString (digitsVal (digitsOf t))) else none)
    ∧ validate_aqi (some { title := none, text := "501" }) = none
    ∧ validate_aqi (some { title := none, text := "abc" }) = none
    ∧ validate_aqi (some { title := none, text := "-1" }) = some "1"
    ∧ validate_aqi (some { title := none, text := "42" }) = some "42" := by
  refine ⟨fun t => ?_, by decide, by decide, by decide, by decide⟩
  by_cases ht : t = ""
  · subst ht
    decide
  · simp only [validate_aqi, if_neg ht, digitsOf]
    by_cases hd : (t.toList.filter Char.isDigit) = []
    · rw [hd]
      simp
    · have hne : (!(t.toList.filter Char.isDigit).isEmpty) = true := by
        rcases h : t.toList.filter Char.isDigit with _ | ⟨c, cs⟩
        · exact absurd h hd
        · rfl
      rw [if_pos hne]
      by_cases h5 : digitsVal (t.toList.filter Char.isDigit) ≤ 500
      · rw [if_pos ⟨Nat.zero_le _, h5⟩, if_pos ⟨hd, h5⟩]
      · rw [if_neg (fun hc => h5 hc.2), if_neg (fun hc => h5 hc.2)]

/-- C3: the temperature validator parses the stripped numeric text, treats
a value above 50 as Fahrenheit and converts it via `(v - 32) * 5 / 9`,
accepts exactly the values landing in `[-50, 50]`, and formats them with
one decimal place and a `°C` suffix; `"98.6"` gives `"37.0°C"`, `"20"`
gives `"20.0°C"`, `"200"` gives the absence marker. -/
theorem validate_temperature_spec :
    (∀ (s : String) (v : Frac), parsePyFloat (stripTemp s) = some v →
      validate_temperature (some s) =
        (let v2 := if v > 50 then (v - 32) * 5 / 9 else v
         if -50 ≤ v2 ∧ v2 ≤ 50 then some (fmt1 v2 ++ "°C") else none))
    ∧ validate_temperature (some "98.6") = some "37.0°C"
    ∧ validate_temperature (some "20") = some "20.0°C"
    ∧ validate_temperature (some "200") = none := by
  refine ⟨fun s v h => ?_, by decide, by decide, by decide⟩
  have hs : s ≠ "" := by
    rintro rfl
    rw [show parsePyFloat (stripTemp "") = none from rfl] at h
    exact Option.noConfusion h
  simp only [validate_temperature, if_neg hs, h]

/-- C3 witness: the characterization applied at the concrete input `"20"`,
which parses to `20`. -/
theorem validate_temperature_spec_witness :
    parsePyFloat (stripTemp "20") = some ((20 : ℕ) : Frac) ∧
    validate_temperature (some "20") =
      (let v2 := if ((20 : ℕ) : Frac) > 50 then (((20 : ℕ) : Frac) - 32) * 5 / 9
                 else ((20 : ℕ) : Frac)
       if -50 ≤ v2 ∧ v2 ≤ 50 then some (fmt1 v2 ++ "°C") else none) :=
  ⟨by decide, validate_temperature_spec.1 "20" ((20 : ℕ) : Frac) (by decide)⟩

theorem leadingNumber_isSome_of_windMatch (s : String) (h : windMatch s = true) :
    (leadingNumber s).isSome := by
  simp only [windMatch] at h
  simp only [leadingNumber]
  by_cases hd : (s.toList.takeWhile Char.isDigit).isEmpty = true
  · rw [if_pos hd] at h
    cases h
  · rw [if_neg hd]
    split
    · split <;> rfl
    · rfl

/-- C4: the wind-speed validator accepts exactly the inputs matching the
pattern `<number>(whitespace)(km/h|mph)`; an `mph` value is converted by
multiplying by `1.60934` and formatting to one decimal place with a
` km/h` suffix, a `km/h` value passes through unchanged; `"25 mph"` gives
`"40.2 km/h"`, `"10 km/h"` gives `"10 km/h"`, `"10 knots"` is rejected. -/
theorem validate_wind_speed_spec :
    (∀ s : String, (validate_wind_speed s).isSome = windMatch s)
    ∧ (∀ (s : String) (v : Frac), windMatch s = true → strContains s "mph" = true →
        leadingNumber s = some v →
        validate_wind_speed s = some (fmt1 (v * (160934 / 100000 : Frac)) ++ " km/h"))
    ∧ (∀ s : String, windMatch s = true → strContains s "mph" = false →
        validate_wind_speed s = some s)
    ∧ validate_wind_speed "25 mph" = some "40.2 km/h"
    ∧ validate_wind_speed "10 km/h" = some "10 km/h"
    ∧ validate_wind_speed "10 knots" = none := by
  refine ⟨fun s => ?_, fun s v hm hmph hv => ?_, fun s hm hmph => ?_,
    by decide, by decide, by decide⟩
  · unfold validate_wind_speed
    by_cases hm : windMatch s = true
    · rw [if_pos hm, hm]
      by_cases hmph : strContains s "mph" = true
      · rw [if_pos hmph]
        obtain ⟨v, hv⟩ := Option.isSome_iff_exists.mp (leadingNumber_isSome_of_windMatch s hm)
        rw [hv]
        rfl
      · rw [if_neg hmph]
        rfl
    · rw [if_neg hm]
      simp [Bool.not_eq_true] at hm
      rw [hm]
      rfl
  · unfold validate_wind_speed
    rw [if_pos hm, if_pos hmph, hv]
  · unfold validate_wind_speed
    rw [if_pos hm, hmph]
    rfl

/-- C4 witness: the conversion clause applied at `"25 mph"`, whose leading
number is `25`. -/
theorem validate_wind_speed_spec_witness :
    (windMatch "25 mph" = true ∧ strContains "25 mph" "mph" = true ∧
      leadingNumber "25 mph" = some ((25 : ℕ) : Frac)) ∧
    validate_wind_speed "25 mph" =
      some (fmt1 (((25 : ℕ) : Frac) * (160934 / 100000 : Frac)) ++ " km/h") :=
  ⟨⟨by decide, by decide, by decide⟩,
    validate_wind_speed_spec.2.1 "25 mph" ((25 : ℕ) : Frac) (by decide) (by decide) (by decide)⟩

/-- C1 (code bug): the Page Session Driver stores the raw extracted texts
in the `wind_speed`, `humidity`, `uv_index` and (on the primary path)
`temperature` fields without running the corresponding validators —
`validate_wind_speed`, `validate_humidity` and `validate_uv_index` are
defined in the source but never called.  On a page whose component values
read `10 knots`, `wet` and `high` and whose temperature spans read `999`
and `°C`, the returned record holds those raw strings, each of which the
matching validator rejects. -/
theorem crawl_stores_unvalidated_fields :
    (crawl_city_data "2025-01-01T00:00:00+07:00" "hanoi" (some pgKnots)).map Record.wind_speed
        = some (some "10 knots")
    ∧ validate_wind_speed "10 knots" = none
    ∧ (crawl_city_data "2025-01-01T00:00:00+07:00" "hanoi" (some pgKnots)).map Record.humidity
        = some (some "wet")
    ∧ validate_humidity "wet" = none
    ∧ (crawl_city_data "2025-01-01T00:00:00+07:00" "hanoi" (some pgKnots)).map Record.uv_index
        = some (some "high")
    ∧ validate_uv_index "high" = none
    ∧ (crawl_city_data "2025-01-01T00:00:00+07:00" "hanoi" (some pgKnots)).map Record.temperature
        = some (some "999°C")
    ∧ validate_temperature (some "999°C") = none := by
  refine ⟨by decide, by decide, by decide, by decide, by decide, by decide, by decide, by decide⟩

/-- C6: whenever `crawl_city_data` returns a record (rather than the
no-record result), every one of the 14 fixed header field names is present
among the record's keys — with absence markers where extraction failed,
but never with a missing key. -/
theorem crawl_record_complete :
    ∀ (now_iso city : String) (page : Option Page) (r : Record),
      crawl_city_data now_iso city page = some r →
      ∀ h ∈ HEADERS, h ∈ recordKeys r := by
  intro now_iso city page r hr h hh
  cases page with
  | none => exact Option.noConfusion hr
  | some pg =>
    simp only [crawl_city_data, Option.some.injEq] at hr
    subst hr
    simp only [HEADERS, List.mem_cons, List.not_mem_nil, or_false] at hh
    simp only [recordKeys]
    rcases hh with rfl | rfl | rfl | rfl | rfl | rfl | rfl | rfl | rfl | rfl | rfl | rfl | rfl | rfl
      <;> first
        | exact List.mem_append_left _ (by decide)
        | exact List.mem_append_right _ (mem_dictKeys_ensureCanon_of_canon _ (by decide))

/-- C6 witness: the completeness theorem applied to the concrete page
`pgEmpty`, whose record is `rEmpty`, at the header key `co`. -/
theorem crawl_record_complete_witness :
    (crawl_city_data "t" "c" (some pgEmpty) = some rEmpty ∧ "co" ∈ HEADERS) ∧
    "co" ∈ recordKeys rEmpty :=
  ⟨⟨by decide, by decide⟩,
    crawl_record_complete "t" "c" (some pgEmpty) rEmpty (by decide) "co" (by decide)⟩

/-- C9: an exception while processing one pollutant block is caught at
that block: `extract_pollutants` on a list with a faulting block equals
`extract_pollutants` on the list without it, and all six canonical
pollutant keys are present in the result of any block list. -/
theorem extract_pollutants_fault_isolation :
    (∀ xs ys : List PBlock,
      extract_pollutants (some (xs ++ PBlock.fault :: ys)) =
        extract_pollutants (some (xs ++ ys)))
    ∧ (∀ (bs : List PBlock) (p : String), p ∈ CANON →
        p ∈ dictKeys (extract_pollutants (some bs))) := by
  constructor
  · intro xs ys
    simp only [extract_pollutants, List.foldl_append, List.foldl_cons]
    rfl
  · intro bs p hp
    exact mem_dictKeys_ensureCanon_of_canon _ hp

/-- C9 witness: the canonical-key clause applied to the concrete block
list `[PBlock.fault]` at the key `pm25`. -/
theorem extract_pollutants_fault_isolation_witness :
    "pm25" ∈ CANON ∧ "pm25" ∈ dictKeys (extract_pollutants (some [PBlock.fault])) :=
  ⟨by decide, extract_pollutants_fault_isolation.2 [PBlock.fault] "pm25" (by decide)⟩

/-- C10: a pollutant block that yields a name label and a digit-bearing
value contributes its normalized key to the pollutant mapping, so the key
appears among the returned record's keys; when that key is outside the
fixed header list (for example `radon`), the record's key set is not
contained in the CSV sink's header list. -/
theorem extra_pollutant_key_reaches_record :
    ∀ (now_iso city : String) (pg : Page) (bs : List PBlock) (b : PBlock)
      (k v : String) (r : Record),
      pg.pollutantBlocks = some bs → b ∈ bs → blockEntry b = some (k, v) →
      crawl_city_data now_iso city (some pg) = some r →
      k ∈ dictKeys r.pollutants ∧ k ∈ recordKeys r ∧
        (k ∉ HEADERS → ¬(∀ x ∈ recordKeys r, x ∈ HEADERS)) := by
  intro now_iso city pg bs b k v r hbs hb he hr
  simp only [crawl_city_data, Option.some.injEq] at hr
  subst hr
  have hk : k ∈ dictKeys (ensureCanon (extract_pollutants pg.pollutantBlocks)) := by
    rw [hbs]
    exact mem_dictKeys_ensureCanon_of_mem _
      (mem_dictKeys_ensureCanon_of_mem _ (mem_dictKeys_foldl_of_block bs [] b hb he))
  refine ⟨hk, List.mem_append_right _ hk, fun hnot hall => hnot ?_⟩
  exact hall k (List.mem_append_right _ hk)

/-- C10 witness: the theorem applied to the concrete page `pgRadon`, whose
`Radon` block yields the key `radon`, absent from the header list. -/
theorem extra_pollutant_key_reaches_record_witness :
    (blockEntry blkRadon = some ("radon", "5") ∧ "radon" ∉ HEADERS ∧
      crawl_city_data "t" "c" (some pgRadon) = some rRadon) ∧
    ("radon" ∈ dictKeys rRadon.pollutants ∧ "radon" ∈ recordKeys rRadon ∧
      ("radon" ∉ HEADERS → ¬(∀ x ∈ recordKeys rRadon, x ∈ HEADERS))) :=
  ⟨⟨by decide, by decide, by decide⟩,
    extra_pollutant_key_reaches_record "t" "c" pgRadon [blkRadon] blkRadon "radon" "5" rRadon
      rfl (by decide) (by decide) (by decide)⟩

/-- C7: the CSV sink writes the header row exactly once, at file creation:
calling `save_to_csv` twice for the same city in the same month (so both
calls resolve to the same path, initially absent) leaves a file holding
exactly one header row followed by the two data rows. -/
theorem save_to_csv_header_once :
    ∀ (fs : CsvFS) (rec1 rec2 : Record) (slug : String) (now1 now2 : DateParts)
      (row1 row2 : List String),
      lookupAssoc fs (csvPath slug now1) = none →
      now1.year = now2.year → now1.month = now2.month →
      rowOf rec1 = some row1 → rowOf rec2 = some row2 →
      lookupAssoc (save_to_csv (save_to_csv fs rec1 slug now1).1 rec2 slug now2).1
          (csvPath slug now1) = some [HEADERS, row1, row2] := by
  intro fs rec1 rec2 slug now1 now2 row1 row2 hnone hy hm h1 h2
  have hnow : now1 = now2 := by
    cases now1
    cases now2
    simp_all
  subst hnow
  have e2 : lookupAssoc (save_to_csv fs rec1 slug now1).1 (csvPath slug now1) =
      some [HEADERS, row1] := by
    simp [save_to_csv, hnone, h1, lookup_assocSet_self]
  revert e2
  generalize (save_to_csv fs rec1 slug now1).1 = fs1
  intro e2
  simp [save_to_csv, e2, h2, lookup_assocSet_self]

/-- C7 witness: two saves of `rEmpty` for `hanoi` in January 2024 starting
from an empty filesystem leave one header row and two data rows. -/
theorem save_to_csv_header_once_witness :
    (lookupAssoc ([] : CsvFS) (csvPath "hanoi" ⟨2024, 1⟩) = none ∧
      rowOf rEmpty = some rowBlank) ∧
    lookupAssoc
        (save_to_csv (save_to_csv [] rEmpty "hanoi" ⟨2024, 1⟩).1 rEmpty "hanoi" ⟨2024, 1⟩).1
        (csvPath "hanoi" ⟨2024, 1⟩) = some [HEADERS, rowBlank, rowBlank] :=
  ⟨⟨rfl, by decide⟩,
    save_to_csv_header_once [] rEmpty rEmpty "hanoi" ⟨2024, 1⟩ ⟨2024, 1⟩ rowBlank rowBlank
      rfl rfl rfl (by decide) (by decide)⟩

/-- C8 counterexample: the output path's year and month come from the
current time at the moment of the call (`get_vietnam_time()` at source
line 262), not from the record's `timestamp` field.  A record stamped
January 2024 saved when the clock reads February 2024 lands in the
February file, not the January file the claim requires. -/
theorem save_to_csv_path_counterexample :
    recJan.timestamp = "2024-01-31T23:59:59+07:00" ∧
    (save_to_csv [] recJan "hanoi" ⟨2024, 2⟩).2 =
      some "result/hanoi/aqi_hanoi_2024_feb.csv" ∧
    "result/hanoi/aqi_hanoi_2024_feb.csv" ≠ "result/hanoi/aqi_hanoi_2024_jan.csv" := by
  refine ⟨by decide, by decide, by decide⟩

/-- C8 amended: the CSV sink computes the output path as
`result/<slug>/aqi_<slug>_<year>_<3-letter-lowercase-month>.csv`, where
the year and month are those of the current Vietnam time at the moment of
the call, not of the record's `timestamp` field. -/
theorem save_to_csv_path_uses_call_time :
    ∀ (fs : CsvFS) (rec : Record) (slug : String) (now : DateParts) (row : List String),
      rowOf rec = some row →
      (save_to_csv fs rec slug now).2 =
        some ("result/" ++ slug ++ "/" ++ "aqi_" ++ slug ++ "_" ++ toString now.year ++ "_" ++
          monthAbbrev now.month ++ ".csv") := by
  intro fs rec slug now row h
  simp [save_to_csv, h, csvPath]

/-- C8 amended witness: the path theorem applied at `rEmpty`, slug `hanoi`
and call time January 2024. -/
theorem save_to_csv_path_uses_call_time_witness :
    rowOf rEmpty = some rowBlank ∧
    (save_to_csv [] rEmpty "hanoi" ⟨2024, 1⟩).2 =
      some ("result/" ++ "hanoi" ++ "/" ++ "aqi_" ++ "hanoi" ++ "_" ++ toString (2024 : ℕ) ++
        "_" ++ monthAbbrev 1 ++ ".csv") :=
  ⟨by decide, save_to_csv_path_uses_call_time [] rEmpty "hanoi" ⟨2024, 1⟩ rowBlank (by decide)⟩
